import Mathlib

/-!
# Verification of the VMAP model-placement core (`ModelInstance.cpp`)

Shallow embedding of `src/game/vmap/ModelInstance.cpp`:

* geometry (vectors, 3×3 matrices, axis-aligned boxes) is embedded over an
  arbitrary `LinearOrderedField K`, instantiated at `ℚ` for concrete
  evaluation and at `ℝ` where trigonometry is needed;
* the mesh collaborator (`WorldModel`) is external per the spec and is
  modelled as an opaque record of query functions;
* the placement-record serialization (`ModelSpawn::readFromFile` /
  `writeToFile`) is embedded over byte streams (`List Nat`, each element a
  byte); float fields are carried as their 32-bit patterns, since the C++
  I/O copies raw bytes and bit-pattern identity is value identity.

C++ `float` arithmetic is idealized as exact field arithmetic.
-/

namespace VMAP

/-- Three-component vector, mirroring `G3D::Vector3`. -/
@[ext] structure Vector3 (K : Type) where
  x : K
  y : K
  z : K
  deriving DecidableEq, Repr

/-- A 3×3 matrix, mirroring `G3D::Matrix3` (row-major entries). -/
@[ext] structure Matrix3 (K : Type) where
  m00 : K
  m01 : K
  m02 : K
  m10 : K
  m11 : K
  m12 : K
  m20 : K
  m21 : K
  m22 : K
  deriving DecidableEq, Repr

variable {K : Type}

/-- Vector subtraction, `u - v`. -/
def Vector3.sub [Ring K] (u v : Vector3 K) : Vector3 K :=
  ⟨u.x - v.x, u.y - v.y, u.z - v.z⟩

/-- Vector addition, `u + v`. -/
def Vector3.add [Ring K] (u v : Vector3 K) : Vector3 K :=
  ⟨u.x + v.x, u.y + v.y, u.z + v.z⟩

/-- Scaling a vector by a scalar, `v * s`. -/
def Vector3.scale [Ring K] (v : Vector3 K) (s : K) : Vector3 K :=
  ⟨v.x * s, v.y * s, v.z * s⟩

/-- Matrix–(column-)vector product `M * v`, as in G3D. -/
def Matrix3.mulV [Ring K] (M : Matrix3 K) (v : Vector3 K) : Vector3 K :=
  ⟨M.m00 * v.x + M.m01 * v.y + M.m02 * v.z,
   M.m10 * v.x + M.m11 * v.y + M.m12 * v.z,
   M.m20 * v.x + M.m21 * v.y + M.m22 * v.z⟩

/-- Row-vector–matrix product `v * M`, as in G3D (`v * M = Mᵀ v`). -/
def Vector3.mulM [Ring K] (v : Vector3 K) (M : Matrix3 K) : Vector3 K :=
  ⟨v.x * M.m00 + v.y * M.m10 + v.z * M.m20,
   v.x * M.m01 + v.y * M.m11 + v.z * M.m21,
   v.x * M.m02 + v.y * M.m12 + v.z * M.m22⟩

/-- Matrix product `M * N`. -/
def Matrix3.mulM [Ring K] (M N : Matrix3 K) : Matrix3 K :=
  ⟨M.m00 * N.m00 + M.m01 * N.m10 + M.m02 * N.m20,
   M.m00 * N.m01 + M.m01 * N.m11 + M.m02 * N.m21,
   M.m00 * N.m02 + M.m01 * N.m12 + M.m02 * N.m22,
   M.m10 * N.m00 + M.m11 * N.m10 + M.m12 * N.m20,
   M.m10 * N.m01 + M.m11 * N.m11 + M.m12 * N.m21,
   M.m10 * N.m02 + M.m11 * N.m12 + M.m12 * N.m22,
   M.m20 * N.m00 + M.m21 * N.m10 + M.m22 * N.m20,
   M.m20 * N.m01 + M.m21 * N.m11 + M.m22 * N.m21,
   M.m20 * N.m02 + M.m21 * N.m12 + M.m22 * N.m22⟩

/-- Scalar multiple of a matrix. -/
def Matrix3.smul [Ring K] (s : K) (M : Matrix3 K) : Matrix3 K :=
  ⟨s * M.m00, s * M.m01, s * M.m02,
   s * M.m10, s * M.m11, s * M.m12,
   s * M.m20, s * M.m21, s * M.m22⟩

/-- The identity matrix. -/
def id3 [Ring K] : Matrix3 K :=
  ⟨1, 0, 0, 0, 1, 0, 0, 0, 1⟩

/-- Determinant of a 3×3 matrix (cofactor expansion along the first row,
as in `G3D::Matrix3::determinant`). -/
def det3 [Ring K] (M : Matrix3 K) : K :=
  M.m00 * (M.m11 * M.m22 - M.m12 * M.m21)
  - M.m01 * (M.m10 * M.m22 - M.m12 * M.m20)
  + M.m02 * (M.m10 * M.m21 - M.m11 * M.m20)

/-- Adjugate (transposed cofactor matrix) of a 3×3 matrix, as computed entry
by entry in `G3D::Matrix3::inverse`. -/
def adj3 [Ring K] (M : Matrix3 K) : Matrix3 K :=
  ⟨M.m11 * M.m22 - M.m12 * M.m21,
   M.m02 * M.m21 - M.m01 * M.m22,
   M.m01 * M.m12 - M.m02 * M.m11,
   M.m12 * M.m20 - M.m10 * M.m22,
   M.m00 * M.m22 - M.m02 * M.m20,
   M.m02 * M.m10 - M.m00 * M.m12,
   M.m10 * M.m21 - M.m11 * M.m20,
   M.m01 * M.m20 - M.m00 * M.m21,
   M.m00 * M.m11 - M.m01 * M.m10⟩

/-- Modelled from the spec: `G3D::Matrix3::inverse` (the G3D sources are not
under `src/`) — the exact matrix inverse, computed as adjugate divided by the
determinant.  The spec (§3) calls `invRotation` "the inverse of the rotation
matrix built from `rotation`". -/
def inverse3 [Field K] (M : Matrix3 K) : Matrix3 K :=
  Matrix3.smul (1 / det3 M) (adj3 M)

/-- Modelled from the spec: rotation about the Z axis, the `kZMat` factor
of `fromEulerAnglesZYX` (G3D sources not under `src/`). -/
noncomputable def rotZ (a : ℝ) : Matrix3 ℝ :=
  ⟨Real.cos a, -Real.sin a, 0,
   Real.sin a, Real.cos a, 0,
   0, 0, 1⟩

/-- Modelled from the spec: rotation about the Y axis, the `kYMat` factor
of `fromEulerAnglesZYX` (G3D sources not under `src/`). -/
noncomputable def rotY (a : ℝ) : Matrix3 ℝ :=
  ⟨Real.cos a, 0, Real.sin a,
   0, 1, 0,
   -Real.sin a, 0, Real.cos a⟩

/-- Modelled from the spec: rotation about the X axis, the `kXMat` factor
of `fromEulerAnglesZYX` (G3D sources not under `src/`). -/
noncomputable def rotX (a : ℝ) : Matrix3 ℝ :=
  ⟨1, 0, 0,
   0, Real.cos a, -Real.sin a,
   0, Real.sin a, Real.cos a⟩

/-- Modelled from the spec: `G3D::Matrix3::fromEulerAnglesZYX` (the G3D
sources are not under `src/`) — per the spec's "ZYX composition order" (§3),
the product `Z(first) * (Y(second) * X(third))` of the three axis rotations,
the first argument being the Z (yaw) angle, the second the Y (pitch) angle,
the third the X (roll) angle. -/
noncomputable def fromEulerAnglesZYX (a b c : ℝ) : Matrix3 ℝ :=
  (rotZ a).mulM ((rotY b).mulM (rotX c))

/-- Axis-aligned box, mirroring `G3D::AABox`. -/
@[ext] structure AABox (K : Type) where
  lo : Vector3 K
  hi : Vector3 K
  deriving DecidableEq, Repr

/-- Modelled from the spec: `G3D::AABox::contains` (G3D sources not under
`src/`) — componentwise containment of a point in a box. -/
def AABox.contains [LinearOrder K] (b : AABox K) (p : Vector3 K) : Prop :=
  b.lo.x ≤ p.x ∧ b.lo.y ≤ p.y ∧ b.lo.z ≤ p.z ∧
  p.x ≤ b.hi.x ∧ p.y ≤ b.hi.y ∧ p.z ≤ b.hi.z

instance [LinearOrder K] (b : AABox K) (p : Vector3 K) :
    Decidable (b.contains p) :=
  inferInstanceAs (Decidable (_ ∧ _))

/-- A ray: origin plus direction, mirroring `G3D::Ray`. -/
structure Ray (K : Type) where
  origin : Vector3 K
  dir : Vector3 K

/-- Modelled from the spec: model flag bits (`ModelInstance.h` is not under
`src/`).  The spec (§3, §6) names two recognized bits, "simple prop / M2 (no
area data)" and "bounding box present"; the claims depend only on the bits
being distinct, not on their numeric values. -/
def MOD_M2 : Nat := 1

/-- Modelled from the spec: the "bounding box present" flag bit
(`ModelInstance.h` is not under `src/`). -/
def MOD_HAS_BOUND : Nat := 4

/-- Modelled from the spec: a mesh sub-group (`GroupModel` of
`WorldModel.cpp/h`, not under `src/`), reduced to the one capability this
core consumes — per §4.5 the sub-group is asked "for its liquid surface
depth at that horizontal position", so the liquid query is a function of
the object-space horizontal coordinates only. -/
structure GroupModel (K : Type) where
  getLiquidLevel : K → K → Option K

/-- Modelled from the spec: the sub-group/root result record
(`GroupLocationInfo` of `WorldModel.h`, not under `src/`): the mesh
collaborator's rich ground result carries a root id and the hit sub-group
(§4.4). -/
structure GroupLocationInfo (K : Type) where
  rootId : Int
  hitModel : Option (GroupModel K)

/-- Modelled from the spec: the opaque mesh collaborator (`WorldModel`,
whose sources are not under `src/`), reduced per the spec (§2,
§9) as an abstract capability record: object-space ray intersection
(returns hit flag and updated distance), object-space downward point
intersection (returns the probe distance on a hit), and the rich variant
(additionally returning the sub-group information). -/
structure WorldModel (K : Type) where
  intersectRay : Vector3 K → Vector3 K → K → Bool → Bool → Bool × K
  intersectPoint : Vector3 K → Vector3 K → Option K
  getLocationInfo : Vector3 K → Vector3 K → Option (K × GroupLocationInfo K)

/-- The per-instance state of `ModelInstance` (the fields of `ModelSpawn`
plus the derived transform fields and the nullable mesh reference). -/
structure ModelInstanceData (K : Type) where
  flags : Nat
  adtId : Nat
  ID : Nat
  iPos : Vector3 K
  iRot : Vector3 K
  iScale : K
  iBound : AABox K
  iInvRot : Matrix3 K
  iInvScale : K
  iModel : Option (WorldModel K)

/-- The geometric fields of a `ModelSpawn` (the serialization view lives in
`ModelSpawnS` below). -/
structure ModelSpawnG (K : Type) where
  flags : Nat
  adtId : Nat
  ID : Nat
  iPos : Vector3 K
  iRot : Vector3 K
  iScale : K
  iBound : AABox K

/-- The constructor `ModelInstance::ModelInstance`: stores the spawn
fields and the mesh
pointer and computes
`iInvRot = fromEulerAnglesZYX(pi*iRot.y/180, pi*iRot.x/180, pi*iRot.z/180).inverse()`
and `iInvScale = 1/iScale`. -/
noncomputable def mkModelInstance (spawn : ModelSpawnG ℝ)
    (model : Option (WorldModel ℝ)) : ModelInstanceData ℝ :=
  { flags := spawn.flags, adtId := spawn.adtId, ID := spawn.ID,
    iPos := spawn.iPos, iRot := spawn.iRot, iScale := spawn.iScale,
    iBound := spawn.iBound,
    iInvRot := inverse3 (fromEulerAnglesZYX (Real.pi * spawn.iRot.y / 180)
      (Real.pi * spawn.iRot.x / 180) (Real.pi * spawn.iRot.z / 180)),
    iInvScale := 1 / spawn.iScale,
    iModel := model }

/-- The recurring object-space transform of the query paths:
`iInvRot * (p - iPos) * iInvScale`. -/
def objPoint [Ring K] (inst : ModelInstanceData K) (p : Vector3 K) :
    Vector3 K :=
  (inst.iInvRot.mulV (p.sub inst.iPos)).scale inst.iInvScale

/-- The transformed downward probe direction:
`iInvRot * Vector3(0, 0, -1)`. -/
def objZDir [Ring K] (inst : ModelInstanceData K) : Vector3 K :=
  inst.iInvRot.mulV ⟨0, 0, -1⟩

/-- The recurring back-transform of the query paths, shared verbatim by the
ground lookups and the liquid lookup:
`((v * iInvRot) * iScale + iPos).z`. -/
def backToWorldZ [Ring K] (inst : ModelInstanceData K) (v : Vector3 K) : K :=
  (((v.mulM inst.iInvRot).scale inst.iScale).add inst.iPos).z

/-- Embeds `ModelInstance::intersectRay`.  The world-space box-intersection
test
`G3D::Ray::intersectionTime` is a G3D collaborator (not under `src/`) and is
passed in as `boxTime`; `boxTime ray box = none` stands for an infinite
intersection time (a miss).  Returns the hit flag and the (possibly
tightened) distance bound `pMaxDist`. -/
def intersectRay [Field K] (inst : ModelInstanceData K)
    (boxTime : Ray K → AABox K → Option K) (pRay : Ray K) (pMaxDist : K)
    (pStopAtFirstHit ignoreM2Model : Bool) : Bool × K :=
  match inst.iModel with
  | none => (false, pMaxDist)
  | some mdl =>
    match boxTime pRay inst.iBound with
    | none => (false, pMaxDist)
    | some _time =>
      let p := (inst.iInvRot.mulV (pRay.origin.sub inst.iPos)).scale
        inst.iInvScale
      let modDir := inst.iInvRot.mulV pRay.dir
      let distance := pMaxDist * inst.iInvScale
      let res := mdl.intersectRay p modDir distance pStopAtFirstHit
        ignoreM2Model
      if res.1 then (true, res.2 * inst.iScale) else (false, pMaxDist)

/-- Modelled from the spec: the `AreaInfo` result record
(`MapTree.h`/`IVMapManager.h`, not under `src/`), restricted per §4.3 to
the two fields this core reads or writes: the recorded ground height and
the tile id. -/
structure AreaInfo (K : Type) where
  ground_Z : K
  adtId : Nat
  deriving Repr

/-- Embeds `ModelInstance::intersectPoint`: mutates the caller's `AreaInfo`;
modelled as returning the updated record. -/
def intersectPoint [LinearOrderedField K] (inst : ModelInstanceData K)
    (p : Vector3 K) (info : AreaInfo K) : AreaInfo K :=
  match inst.iModel with
  | none => info
  | some mdl =>
    if inst.flags &&& MOD_M2 ≠ 0 then info
    else if ¬ inst.iBound.contains p then info
    else
      let pModel := objPoint inst p
      let zDirModel := objZDir inst
      match mdl.intersectPoint pModel zDirModel with
      | none => info
      | some zDist =>
        let world_Z := backToWorldZ inst (pModel.add (zDirModel.scale zDist))
        if info.ground_Z < world_Z then
          { info with ground_Z := world_Z, adtId := inst.adtId }
        else info

/-- Modelled from the spec: the `LocationInfo` result record (`MapTree.h`,
not under `src/`), per §4.4: sub-group, root id, accepted height, and the
back-reference to the instance. -/
structure LocationInfo (K : Type) where
  hitInstance : Option (ModelInstanceData K)
  hitModel : Option (GroupModel K)
  rootId : Int
  ground_Z : K

/-- Embeds `ModelInstance::GetLocationInfo`: returns the success flag and
the
(possibly updated) `LocationInfo`. -/
def GetLocationInfo [LinearOrderedField K] (inst : ModelInstanceData K)
    (p : Vector3 K) (info : LocationInfo K) : Bool × LocationInfo K :=
  match inst.iModel with
  | none => (false, info)
  | some mdl =>
    if inst.flags &&& MOD_M2 ≠ 0 then (false, info)
    else if ¬ inst.iBound.contains p then (false, info)
    else
      let pModel := objPoint inst p
      let zDirModel := objZDir inst
      match mdl.getLocationInfo pModel zDirModel with
      | none => (false, info)
      | some (zDist, groupInfo) =>
        let world_Z := backToWorldZ inst (pModel.add (zDirModel.scale zDist))
        if info.ground_Z < world_Z then
          (true, { info with rootId := groupInfo.rootId,
                             hitModel := groupInfo.hitModel,
                             ground_Z := world_Z,
                             hitInstance := some inst })
        else (false, info)

/-- Embeds `ModelInstance::GetLiquidLevel`: dereferences `info.hitModel`
with no
guard — `none` models the C++ null-pointer dereference (undefined
behaviour); otherwise returns the success flag and the out-parameter
`liqHeight` (left at its incoming value `liqIn` on a miss). -/
def GetLiquidLevel [Field K] (inst : ModelInstanceData K) (p : Vector3 K)
    (info : LocationInfo K) (liqIn : K) : Option (Bool × K) :=
  match info.hitModel with
  | none => none
  | some g =>
    let pModel := objPoint inst p
    match g.getLiquidLevel pModel.x pModel.y with
    | none => some (false, liqIn)
    | some zDist =>
      some (true, backToWorldZ inst ⟨pModel.x, pModel.y, zDist⟩)

/-! ## Concrete fixtures (over `ℚ`) used by witnesses -/

/-- A mesh collaborator that always reports a hit and echoes the distance. -/
def meshEchoQ : WorldModel ℚ :=
  { intersectRay := fun _ _ d _ _ => (true, d),
    intersectPoint := fun _ _ => some 0,
    getLocationInfo := fun _ _ => some (0, ⟨0, none⟩) }

/-- A sub-group whose liquid surface is `x + y`. -/
def gLiquidQ : GroupModel ℚ := ⟨fun x y => some (x + y)⟩

/-- An instance with identity transform, box `[0,10]³`, and a mesh. -/
def instIdQ : ModelInstanceData ℚ :=
  { flags := 0, adtId := 7, ID := 1, iPos := ⟨0, 0, 0⟩, iRot := ⟨0, 0, 0⟩,
    iScale := 1, iBound := ⟨⟨0, 0, 0⟩, ⟨10, 10, 10⟩⟩, iInvRot := id3,
    iInvScale := 1, iModel := some meshEchoQ }

/-- The identity-transform instance with the simple-prop (M2) flag set. -/
def instM2Q : ModelInstanceData ℚ :=
  { instIdQ with flags := MOD_M2 }

/-- The identity-transform instance with no mesh attached. -/
def instNoMeshQ : ModelInstanceData ℚ :=
  { instIdQ with iModel := none }

/-- A location result carrying a liquid-bearing sub-group back-reference. -/
def infoLiqQ : LocationInfo ℚ := ⟨none, some gLiquidQ, 0, 0⟩

/-! ## C5 — bounding-volume cheap reject -/

/-- C5: for every instance (hence every mesh collaborator), every ray whose
bounding-volume intersection time is infinite (`boxTime ... = none`) makes
`intersectRay` report no hit with the distance bound unchanged; the mesh is
never consulted (the result is the same for every attached mesh, as the
universal quantification over `inst` shows). -/
theorem intersectRay_boxMiss_noHit {K : Type} [LinearOrderedField K]
    (inst : ModelInstanceData K) (boxTime : Ray K → AABox K → Option K)
    (pRay : Ray K) (pMaxDist : K) (s i : Bool)
    (h : boxTime pRay inst.iBound = none) :
    intersectRay inst boxTime pRay pMaxDist s i = (false, pMaxDist) := by
  unfold intersectRay
  cases inst.iModel with
  | none => rfl
  | some mdl => rw [h]

/-- Witness for C5 at a concrete instance whose mesh would otherwise
report a hit. -/
theorem intersectRay_boxMiss_noHit_witness :
    intersectRay instIdQ (fun _ _ => none) ⟨⟨1, 1, 1⟩, ⟨1, 0, 0⟩⟩ 7
      false false = (false, 7) :=
  intersectRay_boxMiss_noHit instIdQ (fun _ _ => none) ⟨⟨1, 1, 1⟩, ⟨1, 0, 0⟩⟩
    7 false false rfl

/-! ## C6 — simple-prop (M2) and out-of-bounds early rejects -/

/-- C6: an instance with the simple-prop (M2) bit set never yields a ground
or area result from `intersectPoint` / `GetLocationInfo`, regardless of
geometry and mesh; and a point outside the instance's bound yields no hit —
in both cases for every instance (hence for every mesh and transform, so
the transform result is never consulted). -/
theorem intersectPoint_M2_outOfBounds_noHit {K : Type}
    [LinearOrderedField K] (inst : ModelInstanceData K) (p : Vector3 K)
    (info : AreaInfo K) (infoL : LocationInfo K) :
    (inst.flags &&& MOD_M2 ≠ 0 →
      intersectPoint inst p info = info ∧
      GetLocationInfo inst p infoL = (false, infoL)) ∧
    (¬ inst.iBound.contains p →
      intersectPoint inst p info = info ∧
      GetLocationInfo inst p infoL = (false, infoL)) := by
  refine ⟨fun h => ⟨?_, ?_⟩, fun h => ⟨?_, ?_⟩⟩ <;>
    · first
      | (unfold intersectPoint
         cases inst.iModel with
         | none => rfl
         | some mdl => by_cases hm2 : inst.flags &&& MOD_M2 ≠ 0 <;>
             simp_all)
      | (unfold GetLocationInfo
         cases inst.iModel with
         | none => rfl
         | some mdl => by_cases hm2 : inst.flags &&& MOD_M2 ≠ 0 <;>
             simp_all)

/-- Witness for C6: the M2-flagged instance and an out-of-bounds point,
both with a mesh that would otherwise report a hit. -/
theorem intersectPoint_M2_outOfBounds_noHit_witness :
    (intersectPoint instM2Q ⟨1, 1, 1⟩ ⟨0, 3⟩ = ⟨0, 3⟩ ∧
      GetLocationInfo instM2Q ⟨1, 1, 1⟩ infoLiqQ = (false, infoLiqQ)) ∧
    (intersectPoint instIdQ ⟨20, 1, 1⟩ ⟨0, 3⟩ = ⟨0, 3⟩ ∧
      GetLocationInfo instIdQ ⟨20, 1, 1⟩ infoLiqQ = (false, infoLiqQ)) :=
  ⟨(intersectPoint_M2_outOfBounds_noHit instM2Q ⟨1, 1, 1⟩ ⟨0, 3⟩ infoLiqQ).1
      (by decide),
   (intersectPoint_M2_outOfBounds_noHit instIdQ ⟨20, 1, 1⟩ ⟨0, 3⟩ infoLiqQ).2
      (by simp [instIdQ, AABox.contains]; norm_num)⟩

/-! ## C7 — behaviour when the mesh reference is absent -/

/-- C7 (amended): when the instance's mesh reference is absent, the ray,
point/area, and ground-location queries degrade to "no hit" with the
caller's data unchanged; the liquid-level query, however, never consults
the instance's mesh reference at all (its result is unchanged under any
replacement of `iModel`), so it is not forced to "no hit" by an absent
mesh. -/
theorem queries_noMesh_noHit {K : Type} [LinearOrderedField K]
    (inst : ModelInstanceData K) (boxTime : Ray K → AABox K → Option K)
    (pRay : Ray K) (pMaxDist : K) (s i : Bool) (p : Vector3 K)
    (info : AreaInfo K) (infoL : LocationInfo K) (liqIn : K)
    (h : inst.iModel = none) :
    intersectRay inst boxTime pRay pMaxDist s i = (false, pMaxDist) ∧
    intersectPoint inst p info = info ∧
    GetLocationInfo inst p infoL = (false, infoL) ∧
    ∀ m, GetLiquidLevel { inst with iModel := m } p infoL liqIn =
      GetLiquidLevel inst p infoL liqIn := by
  refine ⟨?_, ?_, ?_, fun m => rfl⟩
  · unfold intersectRay; rw [h]
  · unfold intersectPoint; rw [h]
  · unfold GetLocationInfo; rw [h]

/-- Counterexample for C7 as stated: on an instance whose mesh reference is
absent (`iModel = none`), the liquid-level query still reports a hit (it
reads only the back-reference in the result record), so not every query
degrades to "no hit" when the mesh reference is absent. -/
theorem GetLiquidLevel_noMesh_hit_counterexample :
    instNoMeshQ.iModel = none ∧
    GetLiquidLevel instNoMeshQ ⟨1, 2, 5⟩ infoLiqQ 0 = some (true, 3) := by
  constructor
  · rfl
  · simp [GetLiquidLevel, infoLiqQ, gLiquidQ, instNoMeshQ, instIdQ, objPoint,
      backToWorldZ, Vector3.sub, Vector3.add, Vector3.scale, Matrix3.mulV,
      Vector3.mulM, id3]
    norm_num

/-- Witness for C7 (amended) at a concrete no-mesh instance, replacing the
mesh reference with one that would report hits. -/
theorem queries_noMesh_noHit_witness :
    intersectRay instNoMeshQ (fun _ _ => some 0) ⟨⟨1, 1, 1⟩, ⟨1, 0, 0⟩⟩ 7
      false false = (false, 7) ∧
    intersectPoint instNoMeshQ ⟨1, 1, 1⟩ ⟨0, 3⟩ = ⟨0, 3⟩ ∧
    GetLocationInfo instNoMeshQ ⟨1, 1, 1⟩ infoLiqQ = (false, infoLiqQ) ∧
    ∀ m, GetLiquidLevel { instNoMeshQ with iModel := m } ⟨1, 1, 1⟩ infoLiqQ 0
      = GetLiquidLevel instNoMeshQ ⟨1, 1, 1⟩ infoLiqQ 0 :=
  queries_noMesh_noHit instNoMeshQ (fun _ _ => some 0) ⟨⟨1, 1, 1⟩, ⟨1, 0, 0⟩⟩
    7 false false ⟨1, 1, 1⟩ ⟨0, 3⟩ infoLiqQ 0 rfl

/-! ## C10 — `GetLiquidLevel` performs no defensive checks -/

/-- C10: `GetLiquidLevel` dereferences `info.hitModel` unguarded (`none`
models the null dereference), is total whenever the back-reference holds a
valid sub-group, and performs none of the defensive checks of the other
queries: its result is invariant under arbitrary replacement of the mesh
reference, the flags, and the bounding box. -/
theorem GetLiquidLevel_unguarded {K : Type} [LinearOrderedField K]
    (inst : ModelInstanceData K) (p : Vector3 K) (info : LocationInfo K)
    (liqIn : K) :
    (info.hitModel = none → GetLiquidLevel inst p info liqIn = none) ∧
    (∀ g, info.hitModel = some g →
      (GetLiquidLevel inst p info liqIn).isSome = true) ∧
    ∀ m fl bx,
      GetLiquidLevel { inst with iModel := m, flags := fl, iBound := bx }
        p info liqIn = GetLiquidLevel inst p info liqIn := by
  refine ⟨fun h => ?_, fun g hg => ?_, fun m fl bx => rfl⟩
  · unfold GetLiquidLevel; rw [h]
  · unfold GetLiquidLevel; rw [hg]
    cases h2 : g.getLiquidLevel (objPoint inst p).x (objPoint inst p).y <;>
      simp [h2]

/-- Witness for C10: the null back-reference yields the modelled undefined
behaviour, a valid back-reference yields a total result, and the result
ignores mesh, flags, and bound replacements. -/
theorem GetLiquidLevel_unguarded_witness :
    GetLiquidLevel instIdQ ⟨1, 2, 5⟩ ⟨none, none, 0, 0⟩ 0 = none ∧
    (GetLiquidLevel instNoMeshQ ⟨1, 2, 5⟩ infoLiqQ 0).isSome = true ∧
    GetLiquidLevel
      { instNoMeshQ with
        iModel := some meshEchoQ, flags := MOD_M2,
        iBound := ⟨⟨0, 0, 0⟩, ⟨0, 0, 0⟩⟩ } ⟨1, 2, 5⟩ infoLiqQ 0 =
      GetLiquidLevel instNoMeshQ ⟨1, 2, 5⟩ infoLiqQ 0 :=
  ⟨(GetLiquidLevel_unguarded instIdQ ⟨1, 2, 5⟩ ⟨none, none, 0, 0⟩ 0).1 rfl,
   (GetLiquidLevel_unguarded instNoMeshQ ⟨1, 2, 5⟩ infoLiqQ 0).2.1
     gLiquidQ rfl,
   (GetLiquidLevel_unguarded instNoMeshQ ⟨1, 2, 5⟩ infoLiqQ 0).2.2
     (some meshEchoQ) MOD_M2 ⟨⟨0, 0, 0⟩, ⟨0, 0, 0⟩⟩⟩

/-! ## C8 — liquid-level lookup algorithm -/

/-- C8: with a populated back-reference, `GetLiquidLevel` recomputes the
object-space coordinates of the query point, asks the sub-group for its
liquid height at the horizontal position, returns `false` (leaving the
out-parameter at its incoming value) when the sub-group reports no liquid,
and otherwise returns `true` with `(pModel.x, pModel.y, zDist)` mapped back
to world space by `backToWorldZ` — the very transform of the ground
lookups; moreover the result depends only on the horizontal object-space
coordinates of the query point. -/
theorem GetLiquidLevel_char {K : Type} [LinearOrderedField K]
    (inst : ModelInstanceData K) (p : Vector3 K) (info : LocationInfo K)
    (liqIn : K) (g : GroupModel K) (hg : info.hitModel = some g) :
    (GetLiquidLevel inst p info liqIn =
      match g.getLiquidLevel (objPoint inst p).x (objPoint inst p).y with
      | none => some (false, liqIn)
      | some zDist =>
        some (true, backToWorldZ inst
          ⟨(objPoint inst p).x, (objPoint inst p).y, zDist⟩)) ∧
    ∀ q : Vector3 K, (objPoint inst q).x = (objPoint inst p).x →
      (objPoint inst q).y = (objPoint inst p).y →
      GetLiquidLevel inst q info liqIn = GetLiquidLevel inst p info liqIn := by
  constructor
  · simp only [GetLiquidLevel, hg]
  · intro q hx hy
    simp only [GetLiquidLevel, hg, hx, hy]

/-- Witness for C8: identity transform, liquid surface `x + y`, query point
`(1, 2, 5)` — the sub-group is asked at `(1, 2)` and the world height is
`3`; a second point sharing the horizontals gives the same answer. -/
theorem GetLiquidLevel_char_witness :
    GetLiquidLevel instIdQ ⟨1, 2, 5⟩ infoLiqQ 0 = some (true, 3) ∧
    GetLiquidLevel instIdQ ⟨1, 2, 9⟩ infoLiqQ 0 =
      GetLiquidLevel instIdQ ⟨1, 2, 5⟩ infoLiqQ 0 := by
  have h := GetLiquidLevel_char instIdQ ⟨1, 2, 5⟩ infoLiqQ 0 gLiquidQ rfl
  constructor
  · rw [h.1]
    simp [infoLiqQ, gLiquidQ, instIdQ, objPoint, backToWorldZ, Vector3.sub,
      Vector3.add, Vector3.scale, Matrix3.mulV, Vector3.mulM, id3]
    norm_num
  · refine h.2 ⟨1, 2, 9⟩ ?_ ?_ <;>
      simp [instIdQ, objPoint, Vector3.sub, Vector3.scale, Matrix3.mulV, id3]

/-! ## C3 — monotone tightening of the ray distance bound -/

/-- C3 (amended): for an instance whose scale is positive (with
`iInvScale = 1/iScale` as established at construction) and any mesh
collaborator that only tightens its object-space distance argument on a
hit, the output value of `pMaxDist` is at most the input value. -/
theorem intersectRay_tightens {K : Type} [LinearOrderedField K]
    (inst : ModelInstanceData K) (boxTime : Ray K → AABox K → Option K)
    (pRay : Ray K) (pMaxDist : K) (s i : Bool)
    (hinv : inst.iInvScale = 1 / inst.iScale) (hpos : 0 < inst.iScale)
    (hmesh : ∀ mdl, inst.iModel = some mdl → ∀ o dir dist st ig,
      (mdl.intersectRay o dir dist st ig).1 = true →
      (mdl.intersectRay o dir dist st ig).2 ≤ dist) :
    (intersectRay inst boxTime pRay pMaxDist s i).2 ≤ pMaxDist := by
  unfold intersectRay
  cases hm : inst.iModel with
  | none => simp
  | some mdl =>
    cases hbt : boxTime pRay inst.iBound with
    | none => simp
    | some t =>
      simp only
      split
      next hhit =>
        have h := hmesh mdl hm
          ((inst.iInvRot.mulV (pRay.origin.sub inst.iPos)).scale
            inst.iInvScale)
          (inst.iInvRot.mulV pRay.dir) (pMaxDist * inst.iInvScale) s i hhit
        calc _ ≤ (pMaxDist * inst.iInvScale) * inst.iScale :=
              mul_le_mul_of_nonneg_right h hpos.le
          _ = pMaxDist := by
              rw [hinv]; field_simp
      next hhit => simp

/-- Witness for C3 (amended) at a concrete unit-scale instance whose mesh
echoes the distance bound. -/
theorem intersectRay_tightens_witness :
    (intersectRay instIdQ (fun _ _ => some 0) ⟨⟨1, 1, 1⟩, ⟨1, 0, 0⟩⟩ 5
      false false).2 ≤ 5 := by
  refine intersectRay_tightens instIdQ (fun _ _ => some 0)
    ⟨⟨1, 1, 1⟩, ⟨1, 0, 0⟩⟩ 5 false false (by norm_num [instIdQ])
    (by norm_num [instIdQ]) ?_
  intro mdl hm o dir dist st ig _hhit
  have hmdl : mdl = meshEchoQ := by
    simp only [instIdQ, Option.some.injEq] at hm
    exact hm.symm
  subst hmdl
  exact le_refl _

/-- A mesh collaborator over `ℝ` that always hits and strictly tightens
its distance argument by 1. -/
noncomputable def meshTightenR : WorldModel ℝ :=
  { intersectRay := fun _ _ d _ _ => (true, d - 1),
    intersectPoint := fun _ _ => none,
    getLocationInfo := fun _ _ => none }

/-- A spawn with unit rotation but negative scale `-1`. -/
noncomputable def spawnNegR : ModelSpawnG ℝ :=
  { flags := 0, adtId := 0, ID := 0, iPos := ⟨0, 0, 0⟩, iRot := ⟨0, 0, 0⟩,
    iScale := -1, iBound := ⟨⟨0, 0, 0⟩, ⟨1, 1, 1⟩⟩ }

/-- The constructor-built instance over `spawnNegR` with `meshTightenR`. -/
noncomputable def instNegR : ModelInstanceData ℝ :=
  mkModelInstance spawnNegR (some meshTightenR)

/-- Counterexample for C3 as stated: on a constructor-built instance of
negative scale, with a mesh collaborator that only tightens its distance
argument, `intersectRay` *increases* the distance bound from `0` to `1`. -/
theorem intersectRay_tightens_counterexample :
    (∀ o dir dist st ig,
      (meshTightenR.intersectRay o dir dist st ig).2 ≤ dist) ∧
    ¬ (intersectRay instNegR (fun _ _ => some 0) ⟨⟨0, 0, 0⟩, ⟨1, 0, 0⟩⟩ 0
        false false).2 ≤ 0 := by
  constructor
  · intro o dir dist st ig
    simp [meshTightenR]
  · simp only [intersectRay, instNegR, mkModelInstance, spawnNegR,
      meshTightenR]
    norm_num

/-! ## C4 — strict height comparison gates the reported result -/

/-- C4: when the mesh collaborator reports a geometric intersection, the
caller's record is updated only if the candidate world-space height is
strictly greater than the recorded height: `intersectPoint` then writes
the new height and this instance's tile id, and `GetLocationInfo` writes
the sub-group, root id, accepted height, and the back-reference to this
instance and returns `true`; otherwise both leave the record unchanged and
`GetLocationInfo` returns `false` even though intersection occurred. -/
theorem groundHit_updates_iff_higher {K : Type} [LinearOrderedField K]
    (inst : ModelInstanceData K) (mdl : WorldModel K) (p : Vector3 K)
    (info : AreaInfo K) (infoL : LocationInfo K) (zDp zDl : K)
    (gi : GroupLocationInfo K)
    (hm : inst.iModel = some mdl)
    (hM2 : inst.flags &&& MOD_M2 = 0)
    (hc : inst.iBound.contains p)
    (hip : mdl.intersectPoint (objPoint inst p) (objZDir inst) = some zDp)
    (hgl : mdl.getLocationInfo (objPoint inst p) (objZDir inst) =
      some (zDl, gi)) :
    (intersectPoint inst p info =
      if info.ground_Z <
          backToWorldZ inst ((objPoint inst p).add ((objZDir inst).scale zDp))
        then
        { info with
          ground_Z := backToWorldZ inst
            ((objPoint inst p).add ((objZDir inst).scale zDp)),
          adtId := inst.adtId }
      else info) ∧
    (GetLocationInfo inst p infoL =
      if infoL.ground_Z <
          backToWorldZ inst ((objPoint inst p).add ((objZDir inst).scale zDl))
        then
        (true, { infoL with
          rootId := gi.rootId,
          hitModel := gi.hitModel,
          ground_Z := backToWorldZ inst
            ((objPoint inst p).add ((objZDir inst).scale zDl)),
          hitInstance := some inst })
      else (false, infoL)) := by
  constructor
  · simp [intersectPoint, hm, hM2, hc, hip]
  · simp [GetLocationInfo, hm, hM2, hc, hgl]

/-- A mesh collaborator whose downward probes hit at probe distance `0`,
reporting sub-group `gLiquidQ` under root id `42`. -/
def meshGroundQ : WorldModel ℚ :=
  { intersectRay := fun _ _ d _ _ => (false, d),
    intersectPoint := fun _ _ => some 0,
    getLocationInfo := fun _ _ => some (0, ⟨42, some gLiquidQ⟩) }

/-- The identity-transform instance (tile id `7`) over `meshGroundQ`. -/
def instGroundQ : ModelInstanceData ℚ :=
  { instIdQ with iModel := some meshGroundQ }

/-- Witness for C4: at the point `(1, 2, 8)` the candidate ground height is
`8`; a record holding height `5` is updated to `8` with tile id `7` (and
`GetLocationInfo` succeeds, storing sub-group, root `42`, and the
back-reference), while a record already holding `9` is left unchanged and
`GetLocationInfo` reports no hit although intersection occurred. -/
theorem groundHit_updates_iff_higher_witness :
    intersectPoint instGroundQ ⟨1, 2, 8⟩ ⟨5, 3⟩ = ⟨8, 7⟩ ∧
    GetLocationInfo instGroundQ ⟨1, 2, 8⟩ ⟨none, none, 0, 5⟩ =
      (true, ⟨some instGroundQ, some gLiquidQ, 42, 8⟩) ∧
    intersectPoint instGroundQ ⟨1, 2, 8⟩ ⟨9, 3⟩ = ⟨9, 3⟩ ∧
    GetLocationInfo instGroundQ ⟨1, 2, 8⟩ ⟨none, none, 0, 9⟩ =
      (false, ⟨none, none, 0, 9⟩) := by
  have hz : backToWorldZ instGroundQ
      ((objPoint instGroundQ ⟨1, 2, 8⟩).add
        ((objZDir instGroundQ).scale 0)) = 8 := by
    simp [backToWorldZ, objPoint, objZDir, instGroundQ, instIdQ,
      Vector3.sub, Vector3.add, Vector3.scale, Vector3.mulM, Matrix3.mulV,
      id3]
  have h5 := groundHit_updates_iff_higher instGroundQ meshGroundQ ⟨1, 2, 8⟩
    ⟨5, 3⟩ ⟨none, none, 0, 5⟩ 0 0 ⟨42, some gLiquidQ⟩ rfl (by decide)
    (by decide) rfl rfl
  have h9 := groundHit_updates_iff_higher instGroundQ meshGroundQ ⟨1, 2, 8⟩
    ⟨9, 3⟩ ⟨none, none, 0, 9⟩ 0 0 ⟨42, some gLiquidQ⟩ rfl (by decide)
    (by decide) rfl rfl
  rw [hz] at h5 h9
  refine ⟨?_, ?_, ?_, ?_⟩
  · rw [h5.1]; norm_num [instGroundQ, instIdQ]
  · rw [h5.2]; norm_num [instGroundQ, instIdQ]
  · rw [h9.1]; norm_num
  · rw [h9.2]; norm_num

/-! ## C1 — the constructed inverse rotation and inverse scale -/

/-- The adjugate times the matrix is the determinant times the identity. -/
theorem adj3_mulM {K : Type} [CommRing K] (M : Matrix3 K) :
    (adj3 M).mulM M = Matrix3.smul (det3 M) id3 := by
  ext <;> simp [adj3, Matrix3.mulM, Matrix3.smul, det3, id3] <;> ring

/-- The matrix times its adjugate is the determinant times the identity. -/
theorem mulM_adj3 {K : Type} [CommRing K] (M : Matrix3 K) :
    M.mulM (adj3 M) = Matrix3.smul (det3 M) id3 := by
  ext <;> simp [adj3, Matrix3.mulM, Matrix3.smul, det3, id3] <;> ring

/-- Scalar multiplication commutes with the matrix product (left). -/
theorem smul3_mulM {K : Type} [CommRing K] (s : K) (M N : Matrix3 K) :
    (Matrix3.smul s M).mulM N = Matrix3.smul s (M.mulM N) := by
  ext <;> simp [Matrix3.mulM, Matrix3.smul] <;> ring

/-- Scaling a matrix by `1` is the identity operation. -/
theorem smul3_one {K : Type} [CommRing K] (M : Matrix3 K) :
    Matrix3.smul 1 M = M := by
  ext <;> simp [Matrix3.smul]

/-- The determinant is multiplicative on 3×3 matrices. -/
theorem det3_mulM {K : Type} [CommRing K] (M N : Matrix3 K) :
    det3 (M.mulM N) = det3 M * det3 N := by
  simp only [det3, Matrix3.mulM]; ring

/-- The Z-axis rotation has determinant `1`. -/
theorem det3_rotZ (a : ℝ) : det3 (rotZ a) = 1 := by
  simp only [rotZ, det3]
  ring_nf
  nlinarith [Real.sin_sq_add_cos_sq a]

/-- The Y-axis rotation has determinant `1`. -/
theorem det3_rotY (a : ℝ) : det3 (rotY a) = 1 := by
  simp only [rotY, det3]
  ring_nf
  nlinarith [Real.sin_sq_add_cos_sq a]

/-- The X-axis rotation has determinant `1`. -/
theorem det3_rotX (a : ℝ) : det3 (rotX a) = 1 := by
  simp only [rotX, det3]
  ring_nf
  nlinarith [Real.sin_sq_add_cos_sq a]

/-- The composed Euler rotation has determinant `1`. -/
theorem det3_fromEulerAnglesZYX (a b c : ℝ) :
    det3 (fromEulerAnglesZYX a b c) = 1 := by
  unfold fromEulerAnglesZYX
  rw [det3_mulM, det3_mulM, det3_rotZ, det3_rotY, det3_rotX]
  ring

/-- For a matrix of determinant `1`, `inverse3` is a two-sided inverse. -/
theorem inverse3_two_sided {K : Type} [Field K] (M : Matrix3 K)
    (h : det3 M = 1) :
    (inverse3 M).mulM M = id3 ∧ M.mulM (inverse3 M) = id3 := by
  constructor
  · rw [inverse3, h, smul3_mulM, adj3_mulM, h]
    norm_num [smul3_one]
  · rw [inverse3, h]
    norm_num [smul3_one, mulM_adj3, h]

/-- C1 (amended): at construction, `invRotation` is the exact two-sided
matrix inverse of the rotation matrix composed in ZYX order from the
stored Euler angles with **yaw = rotation.y, pitch = rotation.x,
roll = rotation.z** (each converted from degrees to radians by multiplying
by π/180), and `invScale` is exactly `1/scale`. -/
theorem mkModelInstance_invRot_exact_inverse (spawn : ModelSpawnG ℝ)
    (mdl : Option (WorldModel ℝ)) :
    (mkModelInstance spawn mdl).iInvRot.mulM
      (fromEulerAnglesZYX (Real.pi * spawn.iRot.y / 180)
        (Real.pi * spawn.iRot.x / 180) (Real.pi * spawn.iRot.z / 180)) =
      id3 ∧
    (fromEulerAnglesZYX (Real.pi * spawn.iRot.y / 180)
        (Real.pi * spawn.iRot.x / 180)
        (Real.pi * spawn.iRot.z / 180)).mulM
      (mkModelInstance spawn mdl).iInvRot = id3 ∧
    (mkModelInstance spawn mdl).iInvScale = 1 / spawn.iScale := by
  have h := inverse3_two_sided
    (fromEulerAnglesZYX (Real.pi * spawn.iRot.y / 180)
      (Real.pi * spawn.iRot.x / 180) (Real.pi * spawn.iRot.z / 180))
    (det3_fromEulerAnglesZYX _ _ _)
  exact ⟨h.1, h.2, rfl⟩

/-- A spawn rotated by `90` degrees in the first Euler component. -/
noncomputable def spawnRotR : ModelSpawnG ℝ :=
  { flags := 0, adtId := 0, ID := 0, iPos := ⟨0, 0, 0⟩, iRot := ⟨90, 0, 0⟩,
    iScale := 1, iBound := ⟨⟨0, 0, 0⟩, ⟨1, 1, 1⟩⟩ }

/-- The rotation matrix as the claim words the angle assignment:
yaw = rotation.z, pitch = rotation.y, roll = rotation.x, in ZYX
composition, degrees converted to radians by multiplying by π/180. -/
noncomputable def claimRotation (rot : Vector3 ℝ) : Matrix3 ℝ :=
  fromEulerAnglesZYX (Real.pi * rot.z / 180) (Real.pi * rot.y / 180)
    (Real.pi * rot.x / 180)

/-- Counterexample for C1 as stated: for the spawn rotated 90° in the first
Euler component, the constructed `invRotation` (yaw taken from
`rotation.y`) differs from the inverse of the claim's matrix (yaw taken
from `rotation.z`): their `(0,0)` entries are `0` and `1`. -/
theorem invRot_claim_angle_assignment_counterexample :
    (mkModelInstance spawnRotR none).iInvRot ≠
      inverse3 (claimRotation spawnRotR.iRot) := by
  have e90 : Real.pi * (90 : ℝ) / 180 = Real.pi / 2 := by ring
  have hL : (mkModelInstance spawnRotR none).iInvRot.m00 = 0 := by
    simp only [mkModelInstance, spawnRotR]
    rw [e90]
    norm_num [inverse3, fromEulerAnglesZYX, rotX, rotY, rotZ, Matrix3.mulM,
      adj3, det3, Matrix3.smul, Real.cos_pi_div_two, Real.sin_pi_div_two]
  have hR : (inverse3 (claimRotation spawnRotR.iRot)).m00 = 1 := by
    simp only [claimRotation, spawnRotR]
    rw [e90]
    norm_num [inverse3, fromEulerAnglesZYX, rotX, rotY, rotZ, Matrix3.mulM,
      adj3, det3, Matrix3.smul, Real.cos_pi_div_two, Real.sin_pi_div_two]
  intro h
  have h00 := congrArg Matrix3.m00 h
  rw [hL, hR] at h00
  exact absurd h00 (by norm_num)

/-! ## Serialization (`ModelSpawn::readFromFile` / `writeToFile`)

The file is a byte stream (`List Nat`, each element one byte).  Numeric
fields hold the values of the C++ fields of the corresponding width;
`float` fields are carried as their 32-bit patterns (the C++ I/O copies
the raw 4 bytes, so bit-pattern identity is exact value identity). -/

/-- The serialization view of a `ModelSpawn` record. -/
structure ModelSpawnS where
  flags : Nat
  adtId : Nat
  ID : Nat
  iPos : Vector3 Nat
  iRot : Vector3 Nat
  iScale : Nat
  iBoundLo : Vector3 Nat
  iBoundHi : Vector3 Nat
  name : List Nat
  deriving DecidableEq, Repr

/-- The `w` little-endian bytes of `n` (native encoding of a `w`-byte
field). -/
def natLE : Nat → Nat → List Nat
  | 0, _ => []
  | w + 1, n => n % 256 :: natLE w (n / 256)

/-- The value of a little-endian byte string. -/
def leVal : List Nat → Nat
  | [] => 0
  | b :: bs => b + 256 * leVal bs

/-- The encoding `natLE` always produces exactly `w` bytes. -/
theorem natLE_length (w n : Nat) : (natLE w n).length = w := by
  induction w generalizing n with
  | zero => rfl
  | succ w ih => simp [natLE, ih]

/-- Decoding the little-endian bytes of `n < 256^w` recovers `n`. -/
theorem leVal_natLE (w n : Nat) (h : n < 256 ^ w) :
    leVal (natLE w n) = n := by
  induction w generalizing n with
  | zero => simp at h; simp [natLE, leVal, h]
  | succ w ih =>
    have hdiv : n / 256 < 256 ^ w := by
      rw [Nat.div_lt_iff_lt_mul (by norm_num : 0 < 256)]
      rw [pow_succ] at h; exact h
    simp [natLE, leVal, ih (n / 256) hdiv, Nat.mod_add_div]

/-- A 3-float block: three 4-byte fields, as read/written by
`fread/fwrite(&vec, sizeof(float), 3, f)`. -/
def enc3 (v : Vector3 Nat) : List Nat :=
  natLE 4 v.x ++ natLE 4 v.y ++ natLE 4 v.z

/-- Decoding a 3-float block. -/
def dec3 (l : List Nat) : Vector3 Nat :=
  ⟨leVal (l.take 4), leVal ((l.drop 4).take 4), leVal (l.drop 8)⟩

/-- The block encoding `enc3` always produces 12 bytes. -/
theorem enc3_length (v : Vector3 Nat) : (enc3 v).length = 12 := by
  simp [enc3, natLE_length]

/-- All three components below `2^32`. -/
def wf3 (v : Vector3 Nat) : Prop :=
  v.x < 2 ^ 32 ∧ v.y < 2 ^ 32 ∧ v.z < 2 ^ 32

instance (v : Vector3 Nat) : Decidable (wf3 v) := by
  unfold wf3; infer_instance

/-- Decoding an encoded in-range 3-float block recovers it. -/
theorem dec3_enc3 (v : Vector3 Nat) (h : wf3 v) : dec3 (enc3 v) = v := by
  obtain ⟨hx, hy, hz⟩ := h
  have h32 : (2 : Nat) ^ 32 = 256 ^ 4 := by norm_num
  rw [h32] at hx hy hz
  unfold dec3 enc3
  ext
  · rw [List.append_assoc, List.take_left' (natLE_length 4 v.x)]
    exact leVal_natLE 4 v.x hx
  · rw [List.append_assoc, List.drop_left' (natLE_length 4 v.x),
      List.take_left' (natLE_length 4 v.y)]
    exact leVal_natLE 4 v.y hy
  · rw [show (8 : Nat) = 4 + 4 by norm_num, ← List.drop_drop,
      List.append_assoc, List.drop_left' (natLE_length 4 v.x),
      List.drop_left' (natLE_length 4 v.y)]
    exact leVal_natLE 4 v.z hz

/-- Embeds `fread(buf, size, count, f)`: consumes up to `size*count` bytes
and
returns the number of complete items read, the bytes, and the remaining
stream. -/
def readN (size count : Nat) (s : List Nat) : Nat × List Nat × List Nat :=
  ((s.take (size * count)).length / size, s.take (size * count),
    s.drop (size * count))

/-- The number of items read never exceeds the number requested. -/
theorem readN_fst_le (size count : Nat) (s : List Nat) (hs : 0 < size) :
    (readN size count s).1 ≤ count := by
  unfold readN
  calc (s.take (size * count)).length / size
      ≤ size * count / size := by
        apply Nat.div_le_div_right
        simp [List.length_take_le]
    _ = count := Nat.mul_div_cancel_left count hs

/-- Reading a block of exactly the requested size consumes it whole. -/
theorem readN_exact (size count : Nat) (l rest : List Nat)
    (hl : l.length = size * count) (hs : 0 < size) :
    readN size count (l ++ rest) = (count, l, rest) := by
  unfold readN
  rw [List.take_left' hl, List.drop_left' hl, hl,
    Nat.mul_div_cancel_left count hs]

/-- Reading `readN` at a 4-byte field boundary. -/
theorem readN4_natLE (n : Nat) (rest : List Nat) :
    readN 4 1 (natLE 4 n ++ rest) = (1, natLE 4 n, rest) :=
  readN_exact 4 1 _ rest (by simp [natLE_length]) (by norm_num)

/-- Reading `readN` at a 2-byte field boundary. -/
theorem readN2_natLE (n : Nat) (rest : List Nat) :
    readN 2 1 (natLE 2 n ++ rest) = (1, natLE 2 n, rest) :=
  readN_exact 2 1 _ rest (by simp [natLE_length]) (by norm_num)

/-- Reading `readN` at a 3-float block boundary. -/
theorem readN4_enc3 (v : Vector3 Nat) (rest : List Nat) :
    readN 4 3 (enc3 v ++ rest) = (3, enc3 v, rest) :=
  readN_exact 4 3 _ rest (by simp [enc3_length]) (by norm_num)

/-- Reading one-byte items with count equal to the stream length consumes
the whole stream. -/
theorem readN_all (l : List Nat) : readN 1 l.length l = (l.length, l, []) := by
  simp [readN]

/-- The byte image produced by a successful `writeToFile`. -/
def spawnBytes (spawn : ModelSpawnS) : List Nat :=
  natLE 4 spawn.flags ++ natLE 2 spawn.adtId ++ natLE 4 spawn.ID ++
  enc3 spawn.iPos ++ enc3 spawn.iRot ++ natLE 4 spawn.iScale ++
  (if spawn.flags &&& MOD_HAS_BOUND ≠ 0 then
    enc3 spawn.iBoundLo ++ enc3 spawn.iBoundHi
  else []) ++
  natLE 4 spawn.name.length ++ spawn.name

/-- Embeds `ModelSpawn::writeToFile`: writes the fields in order (bound
block only
when the has-bound flag is set), checks the accumulated written-item count
against 17/11, then writes the name bytes and checks their count; in this
in-memory model every `fwrite` succeeds in full, so the checks are the
code's defensive mirrors. -/
def writeToFile (spawn : ModelSpawnS) : Option (List Nat) :=
  let check := 1 + 1 + 1 + 3 + 3 + 1 +
    (if spawn.flags &&& MOD_HAS_BOUND ≠ 0 then 3 + 3 else 0) + 1
  if check ≠ (if spawn.flags &&& MOD_HAS_BOUND ≠ 0 then 17 else 11) then
    none
  else if spawn.name.length = spawn.name.length then some (spawnBytes spawn)
  else none

/-- The tail of `ModelSpawn::readFromFile` after the fixed fields: the
field-count check, the name-length sanity check, and the name read. -/
def readTail (sp : ModelSpawnS) (check expected : Nat)
    (r7 : Nat × List Nat × List Nat) : Bool × ModelSpawnS :=
  let nameLen := if r7.1 = 1 then leVal r7.2.1 else 0
  if check ≠ expected then (false, sp)
  else if nameLen > 500 then (false, sp)
  else
    let rn := readN 1 nameLen r7.2.2
    if rn.2.1.length ≠ nameLen then (false, sp)
    else (true, { sp with name := rn.2.1 })

/-- Embeds `ModelSpawn::readFromFile`: reads the fields in order,
accumulating the
item count; a zero first read is end-of-stream (failure return, `spawn0`
untouched); fields whose read came back short keep their previous
(`spawn0`) value — they are only trusted after the count check anyway. -/
def readFromFile (s : List Nat) (spawn0 : ModelSpawnS) :
    Bool × ModelSpawnS :=
  let r1 := readN 4 1 s
  let flags := if r1.1 = 1 then leVal r1.2.1 else spawn0.flags
  if r1.1 = 0 then (false, { spawn0 with flags := flags })
  else
    let r2 := readN 2 1 r1.2.2
    let adtId := if r2.1 = 1 then leVal r2.2.1 else spawn0.adtId
    let r3 := readN 4 1 r2.2.2
    let ID := if r3.1 = 1 then leVal r3.2.1 else spawn0.ID
    let r4 := readN 4 3 r3.2.2
    let iPos := if r4.1 = 3 then dec3 r4.2.1 else spawn0.iPos
    let r5 := readN 4 3 r4.2.2
    let iRot := if r5.1 = 3 then dec3 r5.2.1 else spawn0.iRot
    let r6 := readN 4 1 r5.2.2
    let iScale := if r6.1 = 1 then leVal r6.2.1 else spawn0.iScale
    if flags &&& MOD_HAS_BOUND ≠ 0 then
      let rb1 := readN 4 3 r6.2.2
      let iBoundLo := if rb1.1 = 3 then dec3 rb1.2.1 else spawn0.iBoundLo
      let rb2 := readN 4 3 rb1.2.2
      let iBoundHi := if rb2.1 = 3 then dec3 rb2.2.1 else spawn0.iBoundHi
      let r7 := readN 4 1 rb2.2.2
      readTail
        { flags := flags, adtId := adtId, ID := ID, iPos := iPos,
          iRot := iRot, iScale := iScale, iBoundLo := iBoundLo,
          iBoundHi := iBoundHi, name := spawn0.name }
        (r1.1 + r2.1 + r3.1 + r4.1 + r5.1 + r6.1 + rb1.1 + rb2.1 + r7.1)
        17 r7
    else
      let r7 := readN 4 1 r6.2.2
      readTail
        { flags := flags, adtId := adtId, ID := ID, iPos := iPos,
          iRot := iRot, iScale := iScale, iBoundLo := spawn0.iBoundLo,
          iBoundHi := spawn0.iBoundHi, name := spawn0.name }
        (r1.1 + r2.1 + r3.1 + r4.1 + r5.1 + r6.1 + r7.1) 11 r7

/-- Whether a stream's first (flags) field carries the has-bound bit. -/
def streamHasBound (s : List Nat) : Prop :=
  leVal ((readN 4 1 s).2.1) &&& MOD_HAS_BOUND ≠ 0

instance (s : List Nat) : Decidable (streamHasBound s) := by
  unfold streamHasBound; infer_instance

/-- The total count of primitive fields a stream yields, mirroring the
read sequence of `readFromFile` (the bound block being read iff the flags
field carries the has-bound bit). -/
def primCount (s : List Nat) : Nat :=
  let r1 := readN 4 1 s
  let r2 := readN 2 1 r1.2.2
  let r3 := readN 4 1 r2.2.2
  let r4 := readN 4 3 r3.2.2
  let r5 := readN 4 3 r4.2.2
  let r6 := readN 4 1 r5.2.2
  if leVal r1.2.1 &&& MOD_HAS_BOUND ≠ 0 then
    let rb1 := readN 4 3 r6.2.2
    let rb2 := readN 4 3 rb1.2.2
    let r7 := readN 4 1 rb2.2.2
    r1.1 + r2.1 + r3.1 + r4.1 + r5.1 + r6.1 + rb1.1 + rb2.1 + r7.1
  else
    let r7 := readN 4 1 r6.2.2
    r1.1 + r2.1 + r3.1 + r4.1 + r5.1 + r6.1 + r7.1

/-- Well-formedness of a record's raw fields: every fixed-width field fits
its width and the name respects the 500-byte corruption guard. -/
def ModelSpawnS.wf (sp : ModelSpawnS) : Prop :=
  sp.flags < 2 ^ 32 ∧ sp.adtId < 2 ^ 16 ∧ sp.ID < 2 ^ 32 ∧ wf3 sp.iPos ∧
  wf3 sp.iRot ∧ sp.iScale < 2 ^ 32 ∧ wf3 sp.iBoundLo ∧ wf3 sp.iBoundHi ∧
  sp.name.length ≤ 500

instance (sp : ModelSpawnS) : Decidable sp.wf := by
  unfold ModelSpawnS.wf; infer_instance

/-- Every in-memory write succeeds and yields the byte image. -/
theorem writeToFile_eq (spawn : ModelSpawnS) :
    writeToFile spawn = some (spawnBytes spawn) := by
  by_cases hb : spawn.flags &&& MOD_HAS_BOUND ≠ 0 <;> simp [writeToFile, hb]

/-- A failed field-count check makes the decode tail report failure. -/
theorem readTail_check_fails (sp : ModelSpawnS) (check expected : Nat)
    (r7 : Nat × List Nat × List Nat) (h : check ≠ expected) :
    (readTail sp check expected r7).1 = false := by
  simp [readTail, h]

/-! ## C2 — encode/decode round-trip -/

/-- C2: writing a well-formed record (name at most 500 bytes, every
fixed-width field in range) and reading the bytes back succeeds and
reproduces every field exactly — flags, tile id, id, position, rotation,
scale, name — and the bound box exactly when the has-bound flag is set
(without the flag the bound fields keep the output record's previous
values, as the bound block is neither written nor read). -/
theorem writeToFile_readFromFile_roundtrip (spawn spawn0 : ModelSpawnS)
    (h : spawn.wf) :
    writeToFile spawn = some (spawnBytes spawn) ∧
    readFromFile (spawnBytes spawn) spawn0 =
      (true, { spawn with
        iBoundLo := if spawn.flags &&& MOD_HAS_BOUND ≠ 0 then spawn.iBoundLo
          else spawn0.iBoundLo,
        iBoundHi := if spawn.flags &&& MOD_HAS_BOUND ≠ 0 then spawn.iBoundHi
          else spawn0.iBoundHi }) := by
  obtain ⟨h1, h2, h3, h4, h5, h6, h7, h8, h9⟩ := h
  have e32 : (2 : Nat) ^ 32 = 256 ^ 4 := by norm_num
  have e16 : (2 : Nat) ^ 16 = 256 ^ 2 := by norm_num
  have hfl := leVal_natLE 4 spawn.flags (e32 ▸ h1)
  have had := leVal_natLE 2 spawn.adtId (e16 ▸ h2)
  have hid := leVal_natLE 4 spawn.ID (e32 ▸ h3)
  have hsc := leVal_natLE 4 spawn.iScale (e32 ▸ h6)
  have hnl := leVal_natLE 4 spawn.name.length (by
    have : (256 : Nat) ^ 4 = 4294967296 := by norm_num
    omega)
  have hp := dec3_enc3 spawn.iPos h4
  have hr := dec3_enc3 spawn.iRot h5
  have hblo := dec3_enc3 spawn.iBoundLo h7
  have hbhi := dec3_enc3 spawn.iBoundHi h8
  have hgt : ¬ (spawn.name.length > 500) := by omega
  refine ⟨writeToFile_eq spawn, ?_⟩
  by_cases hb : spawn.flags &&& MOD_HAS_BOUND ≠ 0 <;>
    simp [spawnBytes, hb, List.append_assoc, readFromFile, readTail,
      readN4_natLE, readN2_natLE, readN4_enc3, readN_all, hfl, had, hid,
      hsc, hnl, hp, hr, hblo, hbhi, hgt]

/-- A concrete with-bound record. -/
def spawnW : ModelSpawnS :=
  { flags := 4, adtId := 3, ID := 9, iPos := ⟨1, 2, 3⟩, iRot := ⟨4, 5, 6⟩,
    iScale := 7, iBoundLo := ⟨10, 11, 12⟩, iBoundHi := ⟨13, 14, 15⟩,
    name := [65, 66, 67] }

/-- A zeroed record used as the decode output's initial state. -/
def spawn0W : ModelSpawnS :=
  { flags := 0, adtId := 0, ID := 0, iPos := ⟨0, 0, 0⟩, iRot := ⟨0, 0, 0⟩,
    iScale := 0, iBoundLo := ⟨0, 0, 0⟩, iBoundHi := ⟨0, 0, 0⟩, name := [] }

/-- Witness for C2 at the concrete with-bound record. -/
theorem writeToFile_readFromFile_roundtrip_witness :
    writeToFile spawnW = some (spawnBytes spawnW) ∧
    readFromFile (spawnBytes spawnW) spawn0W =
      (true, { spawnW with
        iBoundLo := if spawnW.flags &&& MOD_HAS_BOUND ≠ 0 then spawnW.iBoundLo
          else spawn0W.iBoundLo,
        iBoundHi := if spawnW.flags &&& MOD_HAS_BOUND ≠ 0 then spawnW.iBoundHi
          else spawn0W.iBoundHi }) :=
  writeToFile_readFromFile_roundtrip spawnW spawn0W (by decide)

/-! ## C9 — field-count mismatch always fails -/

/-- C9: any stream whose primitive-field count differs from the expected
count (17 with the has-bound bit, 11 without — e.g. a truncated stream)
makes the decode return failure. -/
theorem readFromFile_count_mismatch_fails (s : List Nat)
    (spawn0 : ModelSpawnS)
    (h : primCount s ≠ if streamHasBound s then 17 else 11) :
    (readFromFile s spawn0).1 = false := by
  have hle := readN_fst_le 4 1 s (by norm_num)
  by_cases h0 : (readN 4 1 s).1 = 0
  · simp [readFromFile, h0]
  · have h1 : (readN 4 1 s).1 = 1 := by omega
    unfold primCount streamHasBound at h
    unfold readFromFile
    by_cases hb : leVal ((readN 4 1 s).2.1) &&& MOD_HAS_BOUND ≠ 0
    · simp [h1, hb] at h ⊢
      exact readTail_check_fails _ _ _ _ h
    · simp [h1, hb] at h ⊢
      exact readTail_check_fails _ _ _ _ h

/-- Witness for C9: a 4-byte stream (only the flags field present) yields
count 1 and decoding it fails. -/
theorem readFromFile_count_mismatch_fails_witness :
    primCount (natLE 4 0) ≠
      (if streamHasBound (natLE 4 0) then 17 else 11) ∧
    (readFromFile (natLE 4 0) spawn0W).1 = false :=
  ⟨by decide,
   readFromFile_count_mismatch_fails (natLE 4 0) spawn0W (by decide)⟩

end VMAP
